import Mathlib

/-!
Verification of the WolkGatewayModule SDK core: a shallow embedding of the
outbound message queue (`outbound_message_deque.py`), the JSON data and status
codecs (`json_data_protocol.py`, `json_status_protocol.py`), the firmware
update status model (`model/firmware_update_status.py`) and the relevant
operations of the orchestrator (`wolk.py`), together with theorems settling
the stated claims about them.
-/

namespace WolkGM

/-- Message envelope (topic, payload).  The model file
`wolk_gateway_module/model/message.py` is absent from the snapshot.
Modelled from the spec: a Message is a pair of a topic string and a
payload (JSON text). -/
structure Message where
  topic : String
  payload : String
deriving DecidableEq, Repr

/-- Whether `needle` occurs as a contiguous run inside `hay`. -/
def containsSub (hay needle : List Char) : Bool :=
  match hay with
  | [] => needle.isEmpty
  | _ :: t => needle.isPrefixOf hay || containsSub t needle

/-- Python substring test `needle in hay` (an empty needle is contained
in every string). -/
def strContains (hay needle : String) : Bool :=
  containsSub hay.toList needle.toList

/-- Python single-character containment `c in s`. -/
def pyHasChar (s : String) (c : Char) : Bool :=
  s.toList.contains c

/-- Python `s.startswith(pat)`. -/
def pyStartsWith (s pat : String) : Bool :=
  pat.toList.isPrefixOf s.toList

/-- Python `s.split(sep)` for a one-character separator, as the codecs
use it with `","`. -/
def pySplitChar (s : String) (c : Char) : List String :=
  (s.toList.splitOn c).map (fun cs => String.mk cs)

/-- Python `s.replace(old, new)` for a one-character pattern, as the
codecs use it on `"\n"`, `"\r"` and the double quote. -/
def pyReplaceChar (s : String) (c : Char) (rep : String) : String :=
  String.join (s.toList.map (fun x => if x = c then rep else String.singleton x))

/-- Python exception kinds raised by the embedded code paths. -/
inductive PyErr where
  | attributeError
  | runtimeError
  | valueError
deriving DecidableEq, Repr

namespace OutboundMessageDeque

/-- `OutboundMessageDeque.put`: `deque.append` on the right; always
returns True. -/
def put (q : List Message) (m : Message) : List Message × Bool :=
  (q ++ [m], true)

/-- `OutboundMessageDeque.remove`: when the message is present,
`deque.remove` deletes the first equal element; the method returns True
on both branches. -/
def remove (q : List Message) (m : Message) : List Message × Bool :=
  if q.contains m then (q.erase m, true) else (q, true)

/-- `OutboundMessageDeque.get`: `deque.popleft`, None when empty. -/
def get (q : List Message) : Option Message × List Message :=
  match q with
  | [] => (none, [])
  | m :: rest => (some m, rest)

/-- `OutboundMessageDeque.get_messages_for_device`: non-destructive
filter by substring match of the device key within the topic. -/
def get_messages_for_device (q : List Message) (device_key : String) : List Message :=
  q.filter (fun m => strContains m.topic device_key)

/-- `OutboundMessageDeque.queue_size`: number of stored messages. -/
def queue_size (q : List Message) : Nat := q.length

end OutboundMessageDeque

/-- Python scalar values appearing in readings, statuses and
configurations: bool, int or str.  (Python floats and their shortest
round-trip `str()` form are not modelled; none of the claims depends on
float formatting.) -/
inductive PyScalar where
  | b (v : Bool)
  | i (v : Int)
  | s (v : String)
deriving DecidableEq, Repr

/-- Python `str()` of a scalar as the codecs apply it: `str(True)` is
`"True"`, `str(5)` is `"5"`, a str maps to itself. -/
def pyStr : PyScalar → String
  | .b true => "True"
  | .b false => "False"
  | .i n => toString n
  | .s v => v

/-- A reading or configuration value: a scalar or a tuple of scalars
(the spec allows tuples of 2 or 3 elements; the type is kept general). -/
inductive PyVal where
  | scalar (v : PyScalar)
  | tup (l : List PyScalar)
deriving DecidableEq, Repr

/-- Lower-case hexadecimal digit, used by the JSON unicode escapes. -/
def hexDigit (n : Nat) : Char :=
  if n < 10 then Char.ofNat (48 + n) else Char.ofNat (87 + n)

/-- Four lower-case hexadecimal digits. -/
def hex4 (n : Nat) : String :=
  String.mk [hexDigit (n / 4096 % 16), hexDigit (n / 256 % 16),
    hexDigit (n / 16 % 16), hexDigit (n % 16)]

/-- JSON `\uXXXX` escape of a code point, with a surrogate pair above
the basic multilingual plane, as produced by `json.dumps`. -/
def uEscape (n : Nat) : String :=
  if n < 65536 then "\\u" ++ hex4 n
  else
    "\\u" ++ hex4 (55296 + (n - 65536) / 1024) ++
    "\\u" ++ hex4 (56320 + (n - 65536) % 1024)

/-- Escape of one character inside a JSON string, per the `json.dumps`
defaults (`ensure_ascii` escapes every character outside printable
ASCII). -/
def jsonEscapeChar (c : Char) : String :=
  if c = '"' then "\\\""
  else if c = '\\' then "\\\\"
  else if c = '\n' then "\\n"
  else if c = '\r' then "\\r"
  else if c = '\t' then "\\t"
  else if c.toNat = 8 then "\\b"
  else if c.toNat = 12 then "\\f"
  else if c.toNat < 32 || c.toNat > 126 then uEscape c.toNat
  else String.singleton c

/-- A JSON string literal for `s`, per `json.dumps`. -/
def jsonQuote (s : String) : String :=
  "\"" ++ String.join (s.toList.map jsonEscapeChar) ++ "\""

/-- The tuple-serialization loop shared by the data codec: append each
element followed by a `","` delimiter, pop the trailing delimiter, and
join.  (On an empty tuple the source would raise IndexError on
`list.pop`; this total extension returns `""`; the spec restricts
tuples to 2 or 3 elements.) -/
def joinTupleLoop (elems : List String) : String :=
  String.join ((elems.foldl (fun acc v => acc ++ [v, ","]) []).dropLast)

/-- A JSON object whose values are strings, per `json.dumps` with the
default separators, preserving dict insertion order. -/
def jsonDictOfStrings (entries : List (String × String)) : String :=
  "\x7b" ++
    String.join (List.intersperse ", "
      (entries.map (fun p => jsonQuote p.1 ++ ": " ++ jsonQuote p.2))) ++
  "\x7d"

/-- A JSON array of strings, per `json.dumps`. -/
def jsonListOfStrings (items : List String) : String :=
  "[" ++ String.join (List.intersperse ", " (items.map jsonQuote)) ++ "]"

/-- `ActuatorState` from `model/actuator_state.py`. -/
inductive ActuatorState where
  | READY
  | BUSY
  | ERROR
deriving DecidableEq, Repr

/-- The `.value` of an `ActuatorState` member (the enum carries ints). -/
def ActuatorState.pyValue : ActuatorState → Int
  | .READY => 0
  | .BUSY => 1
  | .ERROR => 2

/-- `DeviceStatus` from `model/device_status.py`. -/
inductive DeviceStatus where
  | CONNECTED
  | OFFLINE
  | SLEEP
  | SERVICE
deriving DecidableEq, Repr

/-- The `.value` of a `DeviceStatus` member (the enum carries ints). -/
def DeviceStatus.pyValue : DeviceStatus → Int
  | .CONNECTED => 0
  | .OFFLINE => 1
  | .SLEEP => 2
  | .SERVICE => 3

/-- Sensor reading.  The model file `model/sensor_reading.py` is absent
from the snapshot.  Modelled from the spec: a SensorReading is
(reference, value, optional unix-millis timestamp). -/
structure SensorReading where
  reference : String
  value : PyVal
  timestamp : Option Int
deriving DecidableEq, Repr

/-- Actuator status.  The model file `model/actuator_status.py` is
absent from the snapshot.  Modelled from the spec: an ActuatorStatus is
(reference, state, value). -/
structure ActuatorStatus where
  reference : String
  state : ActuatorState
  value : PyVal
deriving DecidableEq, Repr

/-- Python whitespace characters stripped at both ends (via
`str.strip`) by the `int()` and `float()` builtins. -/
def pyIsSpace (c : Char) : Bool :=
  c = ' ' || c = '\t' || c = '\n' || c = '\r' ||
  c.toNat = 11 || c.toNat = 12

/-- Strip leading and trailing whitespace from a character list. -/
def pyStripChars (cs : List Char) : List Char :=
  ((cs.dropWhile pyIsSpace).reverse.dropWhile pyIsSpace).reverse

/-- Value of a non-empty all-digit character list. -/
def parseDigits (cs : List Char) : Option Nat :=
  if cs ≠ [] && cs.all Char.isDigit then
    some (cs.foldl (fun n c => 10 * n + (c.toNat - 48)) 0)
  else none

/-- Sign handling of the Python `int(str)` builtin after stripping:
an optional single leading sign, then decimal digits. -/
def pyIntChars (t : List Char) : Option Int :=
  match t with
  | [] => none
  | c :: rest =>
    if c = '+' then (parseDigits rest).map Int.ofNat
    else if c = '-' then (parseDigits rest).map (fun n => -(Int.ofNat n))
    else (parseDigits t).map Int.ofNat

/-- The Python `int(str)` builtin on a string: strip whitespace, an
optional sign, then decimal digits.  (PEP 515 underscore separators are
not modelled.) -/
def pyInt (s : String) : Option Int :=
  pyIntChars (pyStripChars s.toList)

/-- The Python list comprehension `[f(x) for x in l]` over a parser
that may raise ValueError: all parses succeed or the whole
comprehension fails. -/
def mapOpt {α β : Type} (f : α → Option β) : List α → Option (List β)
  | [] => some []
  | x :: t =>
    match f x with
    | none => none
    | some y => (mapOpt f t).map (fun ys => y :: ys)

/-- The exact decimal value accepted by the Python `float(str)` builtin
(the binary rounding of CPython floats is not modelled; no claim
compares float values). -/
inductive PyFloatLit where
  | fin (mant : Int) (exp10 : Int)
  | inf (neg : Bool)
  | nan
deriving DecidableEq, Repr

/-- Mantissa part of a float literal, around an optional dot: returns
the digits value and the number of fractional digits. -/
def parseMantissa (cs : List Char) : Option (Nat × Nat) :=
  match cs.splitOn '.' with
  | [ip] => (parseDigits ip).map (fun n => (n, 0))
  | [ip, fp] =>
    if ip = [] && fp = [] then none
    else if (ip.all Char.isDigit) && (fp.all Char.isDigit) && (ip ≠ [] || fp ≠ []) then
      (parseDigits (if ip = [] then fp else ip ++ fp)).map
        (fun n => (n, fp.length))
    else none
  | _ => none

/-- Signed decimal exponent of a float literal. -/
def parseExpPart (cs : List Char) : Option Int :=
  match cs with
  | '+' :: rest => (parseDigits rest).map Int.ofNat
  | '-' :: rest => (parseDigits rest).map (fun n => -(Int.ofNat n))
  | t => (parseDigits t).map Int.ofNat

/-- The Python `float(str)` builtin: strip whitespace, lower-case,
optional sign, then `inf`, `infinity`, `nan` or a decimal literal with
an optional exponent. -/
def pyFloat (s : String) : Option PyFloatLit :=
  let t := (pyStripChars s.toList).map Char.toLower
  let core := fun (neg : Bool) (cs : List Char) =>
    if cs = "inf".toList || cs = "infinity".toList then some (PyFloatLit.inf neg)
    else if cs = "nan".toList then some PyFloatLit.nan
    else
      let withExp := fun (m : List Char) (e : Option (List Char)) =>
        match parseMantissa m with
        | none => none
        | some (mant, fracLen) =>
          match e with
          | none =>
            some (PyFloatLit.fin (if neg then -(Int.ofNat mant) else Int.ofNat mant)
              (-(Int.ofNat fracLen)))
          | some ecs =>
            (parseExpPart ecs).map (fun ev =>
              PyFloatLit.fin (if neg then -(Int.ofNat mant) else Int.ofNat mant)
                (ev - Int.ofNat fracLen))
      match cs.splitOn 'e' with
      | [m] => withExp m none
      | [m, e] => withExp m (some e)
      | _ => none
  match t with
  | '+' :: rest => core false rest
  | '-' :: rest => core true rest
  | rest => core false rest

/-- `ConfigurationCommandType` from `model/configuration_command.py`. -/
inductive ConfigurationCommandType where
  | SET
  | GET
deriving DecidableEq, Repr

/-- A JSON scalar arriving in an inbound `configuration_set` payload:
a boolean or a string.  (A JSON number in the payload would make the
source raise TypeError on `"," in value`; the claims do not cover it.) -/
inductive ConfInVal where
  | b (v : Bool)
  | s (v : String)
deriving DecidableEq, Repr

/-- A decoded configuration value as stored back into the `values`
mapping by `make_configuration_command`. -/
inductive ConfOutVal where
  | b (v : Bool)
  | s (v : String)
  | ti (l : List Int)
  | tf (l : List PyFloatLit)
  | ts (l : List String)
deriving DecidableEq, Repr

/-- `ConfigurationCommand` from `model/configuration_command.py`:
a command type plus the optional decoded values mapping. -/
structure ConfigurationCommand where
  command : ConfigurationCommandType
  value : Option (List (String × ConfOutVal))
deriving DecidableEq, Repr

namespace JsonDataProtocol

/-- `DEVICE_PATH_PREFIX` of `JsonDataProtocol` (name shortened). -/
def DEVICE_PATH_PFX : String := "d/"

/-- `REFERENCE_PATH_PREFIX` of `JsonDataProtocol` (name shortened). -/
def REFERENCE_PATH_PFX : String := "r/"

/-- `SENSOR_READING` topic root. -/
def SENSOR_READING : String := "d2p/sensor_reading/"

/-- `AlARM` topic root (the source constant carries this spelling). -/
def AlARM : String := "d2p/events/"

/-- `ACTUATOR_SET` topic root. -/
def ACTUATOR_SET : String := "p2d/actuator_set/"

/-- `ACTUATOR_GET` topic root. -/
def ACTUATOR_GET : String := "p2d/actuator_get/"

/-- `ACTUATOR_STATUS` topic root. -/
def ACTUATOR_STATUS : String := "d2p/actuator_status/"

/-- `CONFIGURATION_SET` topic root. -/
def CONFIGURATION_SET : String := "p2d/configuration_set/"

/-- `CONFIGURATION_GET` topic root. -/
def CONFIGURATION_GET : String := "p2d/configuration_get/"

/-- `CONFIGURATION_STATUS` topic root. -/
def CONFIGURATION_STATUS : String := "d2p/configuration_get/"

/-- `is_configuration_set_message`: topic prefix test. -/
def is_configuration_set_message (m : Message) : Bool :=
  pyStartsWith m.topic CONFIGURATION_SET

/-- `is_configuration_get_message`: topic prefix test. -/
def is_configuration_get_message (m : Message) : Bool :=
  pyStartsWith m.topic CONFIGURATION_GET

/-- `get_inbound_topics_for_device` of `JsonDataProtocol`.  Note the
source concatenates the device key directly with `REFERENCE_PATH_PREFIX`
and with the wildcard, with no `/` of its own. -/
def get_inbound_topics_for_device (device_key : String) : List String :=
  [ACTUATOR_SET ++ DEVICE_PATH_PFX ++ device_key ++ REFERENCE_PATH_PFX ++ "#",
   ACTUATOR_GET ++ DEVICE_PATH_PFX ++ device_key ++ REFERENCE_PATH_PFX ++ "#",
   CONFIGURATION_SET ++ DEVICE_PATH_PFX ++ device_key,
   CONFIGURATION_GET ++ DEVICE_PATH_PFX ++ device_key]

/-- `make_sensor_reading_message`: the tuple branch joins the elements
through the append/pop loop; the payload always carries both the
`"data"` and the `"utc"` field (`json.dumps` renders a None timestamp
as `null`). -/
def make_sensor_reading_message (device_key : String) (r : SensorReading) : Message :=
  let topic := SENSOR_READING ++ DEVICE_PATH_PFX ++ device_key ++
    REFERENCE_PATH_PFX ++ r.reference
  let data :=
    match r.value with
    | .scalar v => pyStr v
    | .tup l => joinTupleLoop (l.map pyStr)
  let utc :=
    match r.timestamp with
    | some t => toString t
    | none => "null"
  ⟨topic, "\x7b\"data\": " ++ jsonQuote data ++ ", \"utc\": " ++ utc ++ "\x7d"⟩

/-- `make_actuator_status_message`: the payload serializes the enum
member `.value` (an int) under `"status"` and the `str()` form of the
value under `"value"`. -/
def make_actuator_status_message (device_key : String) (a : ActuatorStatus) : Message :=
  let topic := ACTUATOR_STATUS ++ DEVICE_PATH_PFX ++ device_key ++
    REFERENCE_PATH_PFX ++ a.reference
  let valueStr :=
    match a.value with
    | .scalar v => pyStr v
    | .tup l => joinTupleLoop (l.map pyStr)
  ⟨topic, "\x7b\"status\": " ++ toString a.state.pyValue ++
    ", \"value\": " ++ jsonQuote valueStr ++ "\x7d"⟩

/-- One element of the tuple branch of `make_configuration_message`:
booleans become `"true"`/`"false"`; a string containing a newline has
LF escaped to a literal backslash-n and CR stripped; a quote is escaped
to backslash-quote; ints pass through `str()` at join time. -/
def tupleElemStep (e : PyScalar) : String :=
  match e with
  | .b true => "true"
  | .b false => "false"
  | .i n => toString n
  | .s s0 =>
    let s1 :=
      if pyHasChar s0 '\n' then pyReplaceChar (pyReplaceChar s0 '\n' "\\n") '\r' ""
      else s0
    if pyHasChar s1 '"' then pyReplaceChar s1 '"' "\\\"" else s1

/-- The scalar branch of `make_configuration_message`: booleans become
`"true"`/`"false"`, everything else its `str()` form, with no newline
or quote escaping. -/
def scalarStep (v : PyScalar) : String :=
  match v with
  | .b true => "true"
  | .b false => "false"
  | .i n => toString n
  | .s v => v

/-- The in-place rewrite `make_configuration_message` applies to one
stored configuration value. -/
def mutateValue : PyVal → String
  | .scalar v => scalarStep v
  | .tup l => joinTupleLoop (l.map tupleElemStep)

/-- `make_configuration_message`: mutates the caller's configuration
mapping in place, replacing every value by its string representation,
then serializes the mutated mapping.  The embedding returns the
mutated mapping (the caller's dict after the call) next to the
message. -/
def make_configuration_message (device_key : String)
    (configuration : List (String × PyVal)) : List (String × PyVal) × Message :=
  let reprs : List (String × String) :=
    configuration.map (fun p => (p.1, mutateValue p.2))
  let mutated : List (String × PyVal) :=
    reprs.map (fun p => (p.1, PyVal.scalar (PyScalar.s p.2)))
  let topic := CONFIGURATION_STATUS ++ DEVICE_PATH_PFX ++ device_key
  (mutated, ⟨topic, "\x7b\"values\": " ++ jsonDictOfStrings reprs ++ "\x7d"⟩)

/-- The per-value decode step of the `SET` branch of
`make_configuration_command`: booleans pass through; a string
containing a newline is first escaped (LF to literal backslash-n, CR
stripped); when the (escaped) string contains a comma it is split and
stored back as a tuple, preferring floats when some part contains a
dot, otherwise ints, falling back to the split strings when the parse
raises ValueError; a string with no comma is left as originally
received (the escaped local copy is discarded). -/
def decodeConfValue (v : ConfInVal) : ConfOutVal :=
  match v with
  | .b bv => .b bv
  | .s sv =>
    let sv1 :=
      if pyHasChar sv '\n' then pyReplaceChar (pyReplaceChar sv '\n' "\\n") '\r' ""
      else sv
    if pyHasChar sv1 ',' then
      let parts := pySplitChar sv1 ','
      if parts.any (fun p => pyHasChar p '.') then
        match mapOpt pyFloat parts with
        | some fs => .tf fs
        | none => .ts parts
      else
        match mapOpt pyInt parts with
        | some ns => .ti ns
        | none => .ts parts
    else .s sv

/-- `make_configuration_command`, starting from the result of
`json.loads(message.payload)["values"]` (JSON parsing itself is not
modelled): the SET branch decodes every entry of the mapping in place,
the GET branch carries no values; a message matching neither prefix
leaves the locals unbound and the source raises (modelled as none). -/
def make_configuration_command (m : Message)
    (values : List (String × ConfInVal)) : Option ConfigurationCommand :=
  if is_configuration_set_message m then
    some ⟨.SET, some (values.map (fun p => (p.1, decodeConfValue p.2)))⟩
  else if is_configuration_get_message m then
    some ⟨.GET, none⟩
  else none

end JsonDataProtocol

namespace JsonStatusProtocol

/-- `DEVICE_PATH_PREFIX` of `JsonStatusProtocol` (name shortened). -/
def DEVICE_PATH_PFX : String := "d/"

/-- `DEVICE_STATUS_UPDATE_TOPIC_ROOT`. -/
def DEVICE_STATUS_UPDATE_TOPIC_ROOT : String := "d2p/subdevice_status_update/"

/-- `DEVICE_STATUS_RESPONSE_TOPIC_ROOT`. -/
def DEVICE_STATUS_RESPONSE_TOPIC_ROOT : String := "d2p/subdevice_status_response/"

/-- `DEVICE_STATUS_REQUEST_TOPIC_ROOT`. -/
def DEVICE_STATUS_REQUEST_TOPIC_ROOT : String := "p2d/subdevice_status_request/"

/-- `LAST_WILL_TOPIC`. -/
def LAST_WILL_TOPIC : String := "lastwill"

/-- `is_device_status_request_message`: topic prefix test. -/
def is_device_status_request_message (m : Message) : Bool :=
  pyStartsWith m.topic DEVICE_STATUS_REQUEST_TOPIC_ROOT

/-- `get_inbound_topics_for_device` of `JsonStatusProtocol`. -/
def get_inbound_topics_for_device (device_key : String) : List String :=
  [DEVICE_STATUS_REQUEST_TOPIC_ROOT ++ DEVICE_PATH_PFX ++ device_key]

/-- `make_device_status_response_message`: the payload serializes the
enum member `.value` (an int) under `"state"`. -/
def make_device_status_response_message (device_key : String)
    (device_status : DeviceStatus) : Message :=
  ⟨DEVICE_STATUS_RESPONSE_TOPIC_ROOT ++ DEVICE_PATH_PFX ++ device_key,
    "\x7b\"state\": " ++ toString device_status.pyValue ++ "\x7d"⟩

/-- `make_device_status_update_message`. -/
def make_device_status_update_message (device_key : String)
    (device_status : DeviceStatus) : Message :=
  ⟨DEVICE_STATUS_UPDATE_TOPIC_ROOT ++ DEVICE_PATH_PFX ++ device_key,
    "\x7b\"state\": " ++ toString device_status.pyValue ++ "\x7d"⟩

/-- `make_last_will_message`: the payload is the JSON array of the
given device keys. -/
def make_last_will_message (device_keys : List String) : Message :=
  ⟨LAST_WILL_TOPIC, jsonListOfStrings device_keys⟩

/-- Python attribute lookup of `extract_key_from_message` on the status
codec.  Neither `json_status_protocol.py` nor its abstract base
`protocol/status_protocol.py` defines such a method, so the lookup
yields nothing and the caller raises AttributeError. -/
def extractKeyMethod : Option (Message → String) := none

end JsonStatusProtocol

/-- `FirmwareUpdateState` from `model/firmware_update_status.py`. -/
inductive FirmwareUpdateState where
  | INSTALLATION
  | COMPLETED
  | ERROR
  | ABORTED
deriving DecidableEq, Repr

/-- `FirmwareUpdateErrorCode` from `model/firmware_update_status.py`. -/
inductive FirmwareUpdateErrorCode where
  | UNSPECIFIED_ERROR
  | FILE_NOT_PRESENT
  | FILE_SYSTEM_ERROR
  | INSTALLATION_FAILED
  | DEVICE_NOT_PRESENT
deriving DecidableEq, Repr

/-- `FirmwareUpdateStatus` from `model/firmware_update_status.py`: a
plain dataclass pairing a state with an optional error code defaulting
to None; the generated constructor assigns the fields with no
validation of any kind. -/
structure FirmwareUpdateStatus where
  status : FirmwareUpdateState
  error_code : Option FirmwareUpdateErrorCode := none
deriving DecidableEq, Repr

/-- What happened to one encoded message on the publish-or-store path:
the messages that went out through the connectivity service and the
messages that were put into the outbound queue. -/
structure PublishOutcome where
  published : List Message
  queued : List Message
deriving DecidableEq, Repr

/-- The shared tail of `publish_acutator_status`,
`publish_device_status` and `publish_configuration` in `wolk.py`: when
connected, publish and fall back to the queue, raising RuntimeError if
both fail; when not connected, go to the queue directly, raising
RuntimeError if the put fails. -/
def publishOrStore (connected : Bool) (pubOk putOk : Message → Bool)
    (m : Message) : Except PyErr PublishOutcome :=
  if connected then
    if pubOk m then .ok ⟨[m], []⟩
    else if putOk m then .ok ⟨[], [m]⟩
    else .error .runtimeError
  else if putOk m then .ok ⟨[], [m]⟩
  else .error .runtimeError

/-- `Wolk.publish_acutator_status` (the source spells it so): requires
both actuator callbacks, asks the provider, rejects a None state with
RuntimeError (a state of the wrong type is excluded by the embedding's
types), encodes, then publishes or stores.  Returns the encoded
message next to the outcome. -/
def publish_acutator_status (hasActuationHandler hasStatusProvider : Bool)
    (provider : String → String → Option ActuatorState × PyVal)
    (connected : Bool) (pubOk putOk : Message → Bool)
    (device_key reference : String) : Except PyErr (Message × PublishOutcome) :=
  if !(hasStatusProvider && hasActuationHandler) then .error .runtimeError
  else
    match provider device_key reference with
    | (none, _) => .error .runtimeError
    | (some state, value) =>
      let message := JsonDataProtocol.make_actuator_status_message device_key
        ⟨reference, state, value⟩
      (publishOrStore connected pubOk putOk message).map (fun o => (message, o))

/-- `Wolk.publish_device_status`: asks the status provider, rejects a
value that is not a `DeviceStatus` with ValueError (modelled as the
provider returning none), encodes, then publishes or stores. -/
def publish_device_status (statusProvider : String → Option DeviceStatus)
    (connected : Bool) (pubOk putOk : Message → Bool)
    (device_key : String) : Except PyErr (Message × PublishOutcome) :=
  match statusProvider device_key with
  | none => .error .valueError
  | some st =>
    let message := JsonStatusProtocol.make_device_status_update_message device_key st
    (publishOrStore connected pubOk putOk message).map (fun o => (message, o))

/-- `Wolk.publish_configuration`: requires both configuration
callbacks, asks the provider, rejects None with RuntimeError, encodes
(mutating the provider's mapping), then publishes or stores. -/
def publish_configuration (hasConfHandler hasConfProvider : Bool)
    (provider : String → Option (List (String × PyVal)))
    (connected : Bool) (pubOk putOk : Message → Bool)
    (device_key : String) : Except PyErr (Message × PublishOutcome) :=
  if !(hasConfHandler && hasConfProvider) then .error .runtimeError
  else
    match provider device_key with
    | none => .error .runtimeError
    | some configuration =>
      let message := (JsonDataProtocol.make_configuration_message device_key
        configuration).2
      (publishOrStore connected pubOk putOk message).map (fun o => (message, o))

/-- Result of a `Wolk.publish` drain: the remaining queue, the
successfully published messages in order, and the exception that
escaped the loop, if any. -/
structure DrainResult where
  queue : List Message
  published : List Message
  raised : Option PyErr
deriving DecidableEq, Repr

/-- One while-loop pass of the global drain, recursing on an explicit
fuel bound: every iteration pops the front message (and possibly one
equal duplicate), so the queue length strictly decreases and the
initial length is always enough fuel; the zero-fuel fallback is
unreachable from `drainLoop`. -/
def drainLoopFuel (pubOk : Message → Bool) :
    Nat → List Message → List Message → DrainResult
  | _, [], pubs => ⟨[], pubs, none⟩
  | 0, q, pubs => ⟨q, pubs, none⟩
  | fuel + 1, m :: rest, pubs =>
    if pubOk m then
      drainLoopFuel pubOk fuel (OutboundMessageDeque.remove rest m).1 (pubs ++ [m])
    else ⟨rest, pubs, some PyErr.attributeError⟩

/-- The global drain loop of `Wolk.publish` (no device key): while the
queue is non-empty, `get()` pops the front message; a failed transport
publish runs `self.log.info.error(...)`, which raises AttributeError
(bound methods have no `error` attribute) with the message already
popped; a successful publish is followed by `remove(message)`, which
deletes the first remaining equal duplicate, if any. -/
def drainLoop (pubOk : Message → Bool) (q pubs : List Message) : DrainResult :=
  drainLoopFuel pubOk q.length q pubs

/-- The keyed drain loop of `Wolk.publish`: iterate over the
non-destructive per-device snapshot, removing each message from the
queue only after its successful publish; a failed publish raises
AttributeError from `self.log.info.error` with the queue untouched. -/
def drainKeyed (pubOk : Message → Bool) (q : List Message)
    (msgs pubs : List Message) : DrainResult :=
  match msgs with
  | [] => ⟨q, pubs, none⟩
  | m :: rest =>
    if pubOk m then
      drainKeyed pubOk (OutboundMessageDeque.remove q m).1 rest (pubs ++ [m])
    else ⟨q, pubs, some PyErr.attributeError⟩

/-- `Wolk.publish`: no-op on an empty queue or when disconnected;
otherwise drains globally or restricted to the given device key. -/
def publish (connected : Bool) (pubOk : Message → Bool)
    (q : List Message) (device_key : Option String) : DrainResult :=
  if OutboundMessageDeque.queue_size q == 0 then ⟨q, [], none⟩
  else if !connected then ⟨q, [], none⟩
  else
    match device_key with
    | none => drainLoop pubOk q []
    | some k =>
      drainKeyed pubOk q (OutboundMessageDeque.get_messages_for_device q k) []

/-- The device-status-request branch of `Wolk._on_inbound_message`
(lines 590-608; no earlier branch of the elif chain matches this topic
root).  The source calls `self.status_protocol.extract_key_from_message`,
an attribute the status codec does not define, so the branch raises
AttributeError before reaching the provider; the surviving code (under
`extractKeyMethod = some f`) would ask the provider and publish or
enqueue the response, logging when the provider returns nothing or
when both publish and store fail. -/
def onDeviceStatusRequest (statusProvider : String → Option DeviceStatus)
    (pubOk putOk : Message → Bool)
    (m : Message) : Except PyErr (Option (String × PublishOutcome)) :=
  if JsonStatusProtocol.is_device_status_request_message m then
    match JsonStatusProtocol.extractKeyMethod with
    | none => .error .attributeError
    | some extract =>
      let device_key := extract m
      match statusProvider device_key with
      | none => .ok none
      | some st =>
        let response :=
          JsonStatusProtocol.make_device_status_response_message device_key st
        if pubOk response then .ok (some (device_key, ⟨[response], []⟩))
        else if putOk response then .ok (some (device_key, ⟨[], [response]⟩))
        else .ok (some (device_key, ⟨[], []⟩))
  else .ok none

/-- Device.  The model file `model/device.py` is absent from the
snapshot.  Modelled from the spec: a device carries a unique key, a
name and a template; `wolk.py` reads the template's capabilities only
through `get_actuator_references()`, `has_configurations()` and
`supports_firmware_update()`, captured here as fields. -/
structure Device where
  key : String
  name : String
  actuator_references : List String
  has_configurations : Bool
  supports_firmware_update : Bool
deriving DecidableEq, Repr

/-- Which caller callbacks were supplied to the `Wolk` constructor
(the constructor also guarantees the two actuator callbacks and the
two configuration callbacks come in pairs).  `add_device` never reads
`firmware_handler` in its firmware guard; the field records its
presence anyway. -/
structure Callbacks where
  actuation_handler : Bool
  acutator_status_provider : Bool
  configuration_handler : Bool
  configuration_provider : Bool
  firmware_handler : Bool
deriving DecidableEq, Repr

/-- The orchestrator state touched by `add_device` and
`remove_device`: the device registry, the outbound queue, the last-will
message stored in the connectivity service and the subscribed topics. -/
structure WolkState where
  devices : List Device
  queue : List Message
  lastwill : Option Message
  subscriptions : List String
deriving DecidableEq, Repr

/-- Behaviour of the connectivity service and the queue backend as seen
by `add_device` / `remove_device`: connection flag, per-message publish
and put results, whether `reconnect()` raises RuntimeError, and the
service's own `remove_topics_for_device`. -/
structure Transport where
  connected : Bool
  pubOk : Message → Bool
  putOk : Message → Bool
  reconnectRaises : Bool
  removeTopicsFor : List String → String → List String

/-- The union of the four codecs' inbound topics collected by
`add_device`, in the source's order (data, registration, firmware,
status). -/
def inbound_topics_for_device (device_key : String) : List String :=
  JsonDataProtocol.get_inbound_topics_for_device device_key ++
  ["p2d/register_subdevice_response/" ++ "d/" ++ device_key] ++
  ["p2d/firmware_update_install/" ++ "d/" ++ device_key,
   "p2d/firmware_update_abort/" ++ "d/" ++ device_key] ++
  JsonStatusProtocol.get_inbound_topics_for_device device_key

/-- `Wolk.add_device`: rejects duplicate keys and capability/callback
mismatches by logging and returning; for a firmware-capable device the
guard reads `self.install_firmware`, an attribute never assigned on
`Wolk`, and raises AttributeError; otherwise appends the device,
extends the subscriptions, rebuilds the last-will message from the new
registry, and emits the registration request (built by the pluggable
registration codec `mkRegMsg`): queued when disconnected, else
published after a reconnect attempt whose RuntimeError is caught by
queueing the request first (and then still falling through to the
publish).  Returns the state next to the exception that escaped, if
any. -/
def add_device (cb : Callbacks) (tr : Transport) (mkRegMsg : Device → Message)
    (w : WolkState) (d : Device) : WolkState × Option PyErr :=
  if (w.devices.map Device.key).contains d.key then (w, none)
  else if d.actuator_references != [] &&
      !(cb.actuation_handler && cb.acutator_status_provider) then (w, none)
  else if d.has_configurations &&
      !(cb.configuration_handler && cb.configuration_provider) then (w, none)
  else if d.supports_firmware_update then (w, some .attributeError)
  else
    let devices := w.devices ++ [d]
    let base : WolkState :=
      ⟨devices, w.queue,
        some (JsonStatusProtocol.make_last_will_message (devices.map Device.key)),
        w.subscriptions ++ inbound_topics_for_device d.key⟩
    let msg := mkRegMsg d
    if !tr.connected then
      if tr.putOk msg then ({ base with queue := base.queue ++ [msg] }, none)
      else (base, some .runtimeError)
    else
      if tr.reconnectRaises then
        if tr.putOk msg then
          let st : WolkState := { base with queue := base.queue ++ [msg] }
          if tr.pubOk msg then (st, none)
          else if tr.putOk msg then ({ st with queue := st.queue ++ [msg] }, none)
          else (st, some .runtimeError)
        else (base, some .runtimeError)
      else
        if tr.pubOk msg then (base, none)
        else if tr.putOk msg then ({ base with queue := base.queue ++ [msg] }, none)
        else (base, some .runtimeError)

/-- Removal of the first device with the given key, as the
`list.remove` loop in `remove_device` does it. -/
def removeFirstWithKey : List Device → String → List Device
  | [], _ => []
  | d :: rest, k => if d.key = k then rest else d :: removeFirstWithKey rest k

/-- `Wolk.remove_device`: no-op on an unknown key; otherwise removes
the device, drops its topics from the connectivity service, rebuilds
the last-will message from the remaining registry, and (when
connected) attempts a reconnect whose RuntimeError is caught and
logged, leaving the state as built. -/
def remove_device (tr : Transport) (w : WolkState) (device_key : String) : WolkState :=
  if (w.devices.map Device.key).contains device_key then
    let devices := removeFirstWithKey w.devices device_key
    ⟨devices, w.queue,
      some (JsonStatusProtocol.make_last_will_message (devices.map Device.key)),
      tr.removeTopicsFor w.subscriptions device_key⟩
  else w

/-- Specification-side reading representation, following the spec's
words: the string form of the value, with tuple elements joined by
`","`. -/
def specDataRepr : PyVal → String
  | .scalar v => pyStr v
  | .tup l => String.join (List.intersperse "," (l.map pyStr))

/-- The `"utc"` field text: the integer timestamp, or `null` when no
timestamp was supplied. -/
def utcRepr : Option Int → String
  | some t => toString t
  | none => "null"

/-- Specification-side configuration value representation: tuple
elements (escaped as the codec's tuple branch does) joined by `","`,
scalars through the scalar branch. -/
def specValueRepr : PyVal → String
  | .scalar v => JsonDataProtocol.scalarStep v
  | .tup l => String.join (List.intersperse "," (l.map JsonDataProtocol.tupleElemStep))

/-- Specification-side decode of one inbound configuration value,
following the claim's words: booleans pass through; a comma-separated
string whose elements all parse as integers becomes an integer tuple;
one where some element contains a dot and all elements parse as floats
becomes a float tuple; any other comma-separated string becomes a
string tuple. -/
def specDecodeConfValue (v : ConfInVal) : ConfOutVal :=
  match v with
  | .b bv => .b bv
  | .s sv =>
    if pyHasChar sv ',' then
      let parts := pySplitChar sv ','
      match mapOpt pyInt parts with
      | some ns => .ti ns
      | none =>
        if parts.any (fun p => pyHasChar p '.') then
          match mapOpt pyFloat parts with
          | some fs => .tf fs
          | none => .ts parts
        else .ts parts
    else .s sv

/-- Specification-side configuration command decode, built from
`specDecodeConfValue`. -/
def specMakeConfigurationCommand (m : Message)
    (values : List (String × ConfInVal)) : Option ConfigurationCommand :=
  if JsonDataProtocol.is_configuration_set_message m then
    some ⟨.SET, some (values.map (fun p => (p.1, specDecodeConfValue p.2)))⟩
  else if JsonDataProtocol.is_configuration_get_message m then
    some ⟨.GET, none⟩
  else none

/-- An inbound configuration value contains no newline (the escaping
step of the decoder then never fires). -/
def noNewlineVal : ConfInVal → Bool
  | .b _ => true
  | .s sv => !(pyHasChar sv '\n')

/-- Sample actuator-status message used by concrete instantiations. -/
def actMsgSample : Message :=
  JsonDataProtocol.make_actuator_status_message "k"
    ⟨"r", ActuatorState.READY, PyVal.scalar (PyScalar.i 1)⟩

/-- Sample device-status update message used by concrete
instantiations. -/
def statusMsgSample : Message :=
  JsonStatusProtocol.make_device_status_update_message "k" DeviceStatus.CONNECTED

/-- Sample configuration message used by concrete instantiations. -/
def confMsgSample : Message :=
  (JsonDataProtocol.make_configuration_message "k"
    [("ref", PyVal.scalar (PyScalar.i 7))]).2

/-- Sample device without any capability, used by concrete
instantiations. -/
def plainDeviceSample : Device :=
  ⟨"module_device_1", "Device 1", [], false, false⟩

/-- Sample firmware-capable device, used by concrete instantiations. -/
def fwDeviceSample : Device :=
  ⟨"module_device_2", "Device 2", [], false, true⟩

/-- Sample device declaring one actuator, used by concrete
instantiations. -/
def actDeviceSample : Device :=
  ⟨"module_device_3", "Device 3", ["SW"], false, false⟩

/-- Sample device declaring configuration options, used by concrete
instantiations. -/
def confDeviceSample : Device :=
  ⟨"module_device_4", "Device 4", [], true, false⟩

/-- Transport sample: disconnected, every publish and put succeeds. -/
def trSample : Transport :=
  ⟨false, fun _ => true, fun _ => true, false, fun subs _ => subs⟩

/-- Callbacks sample: nothing supplied. -/
def cbNoneSample : Callbacks := ⟨false, false, false, false, false⟩

/-- Callbacks sample: everything supplied. -/
def cbAllSample : Callbacks := ⟨true, true, true, true, true⟩

/-- Registration-codec sample: the pluggable codec builds a request on
the registration request topic root carrying the device key. -/
def mkRegMsgSample : Device → Message :=
  fun d => ⟨"d2p/register_subdevice_request/", d.key⟩

theorem foldl_pairs (l : List String) (acc : List String) :
    l.foldl (fun a v => a ++ [v, ","]) acc =
      acc ++ (l.map (fun v => [v, ","])).flatten := by
  induction l generalizing acc with
  | nil => simp
  | cons x xs ih => simp [ih, List.append_assoc]

theorem pairs_join_dropLast (l : List String) :
    ((l.map (fun v => [v, ","])).flatten).dropLast = List.intersperse "," l := by
  induction l with
  | nil => simp
  | cons x xs ih =>
    cases xs with
    | nil => simp
    | cons y t =>
      have hne : (((y :: t).map (fun v => [v, ","])).flatten) ≠ [] := by simp
      calc (((x :: y :: t).map (fun v => [v, ","])).flatten).dropLast
          = ([x, ","] ++ ((y :: t).map (fun v => [v, ","])).flatten).dropLast := by simp
        _ = [x, ","] ++ (((y :: t).map (fun v => [v, ","])).flatten).dropLast := by
              rw [List.dropLast_append_of_ne_nil _ hne]
        _ = [x, ","] ++ List.intersperse "," (y :: t) := by rw [ih]
        _ = List.intersperse "," (x :: y :: t) := by simp [List.intersperse]

theorem joinTupleLoop_eq (l : List String) :
    joinTupleLoop l = String.join (List.intersperse "," l) := by
  unfold joinTupleLoop
  rw [foldl_pairs, List.nil_append, pairs_join_dropLast]

theorem mutateValue_eq_spec (v : PyVal) :
    JsonDataProtocol.mutateValue v = specValueRepr v := by
  cases v with
  | scalar s => rfl
  | tup l => simp [JsonDataProtocol.mutateValue, specValueRepr, joinTupleLoop_eq]

/-- Claim C9: for every message and queue state, `remove` returns True
even when the message is not present, and an absent message leaves the
queue contents unchanged. -/
theorem deque_remove_true_and_frame (q : List Message) (m : Message) :
    (OutboundMessageDeque.remove q m).2 = true ∧
    (m ∉ q → (OutboundMessageDeque.remove q m).1 = q) := by
  unfold OutboundMessageDeque.remove
  refine ⟨by split <;> rfl, fun h => ?_⟩
  rw [if_neg]
  simpa using h

theorem deque_remove_true_and_frame_witness :
    (OutboundMessageDeque.remove [⟨"a", "1"⟩] ⟨"b", "2"⟩).2 = true ∧
    (OutboundMessageDeque.remove [⟨"a", "1"⟩] ⟨"b", "2"⟩).1 = [⟨"a", "1"⟩] := by
  have h := deque_remove_true_and_frame [⟨"a", "1"⟩] ⟨"b", "2"⟩
  exact ⟨h.1, h.2 (by decide)⟩

/-- Claim C6 counterexample: the source dataclass performs no
construction-time validation, so a `FirmwareUpdateStatus` with state
COMPLETED and an error code is constructible, refuting the claimed
"error code present iff state is ERROR" invariant. -/
theorem firmware_status_invariant_counterexample :
    ¬ ∀ s : FirmwareUpdateStatus,
      (s.error_code.isSome ↔ s.status = FirmwareUpdateState.ERROR) := by
  intro h
  have h2 := h ⟨FirmwareUpdateState.COMPLETED,
    some FirmwareUpdateErrorCode.UNSPECIFIED_ERROR⟩
  simp at h2

/-- Claim C6 as amended: construction of `FirmwareUpdateStatus` accepts
any state paired with any optional error code and stores the fields
unchanged; in particular COMPLETED with an error code and ERROR without
one are both constructible. -/
theorem firmware_status_unvalidated :
    (∀ (s : FirmwareUpdateState) (e : Option FirmwareUpdateErrorCode),
      (FirmwareUpdateStatus.mk s e).status = s ∧
      (FirmwareUpdateStatus.mk s e).error_code = e) ∧
    (FirmwareUpdateStatus.mk FirmwareUpdateState.COMPLETED
      (some FirmwareUpdateErrorCode.UNSPECIFIED_ERROR)).error_code.isSome = true ∧
    (FirmwareUpdateStatus.mk FirmwareUpdateState.ERROR none).error_code = none :=
  ⟨fun _ _ => ⟨rfl, rfl⟩, rfl, rfl⟩

/-- Claim C5 counterexample: for a boolean reading without a timestamp
the payload is exactly `{"data": "True", "utc": null}` - the boolean is
not lowercased and the `"utc"` field is present (as null), not
omitted. -/
theorem sensor_reading_payload_counterexample :
    (JsonDataProtocol.make_sensor_reading_message "module_device_1"
      ⟨"T", PyVal.scalar (PyScalar.b true), none⟩).payload =
      "\x7b\"data\": \"True\", \"utc\": null\x7d" ∧
    "\x7b\"data\": \"True\", \"utc\": null\x7d" ≠ "\x7b\"data\": \"true\"\x7d" :=
  ⟨rfl, by decide⟩

/-- Claim C5 as amended: the sensor-reading payload is a JSON object
whose `"data"` field is the string representation of the value (tuple
elements joined by `","`, booleans in Python `str()` capitalisation)
and whose `"utc"` field is always present: the integer timestamp when
one was supplied, JSON null otherwise. -/
theorem sensor_reading_payload_shape (device_key : String) (r : SensorReading) :
    (JsonDataProtocol.make_sensor_reading_message device_key r).payload =
      "\x7b\"data\": " ++ jsonQuote (specDataRepr r.value) ++ ", \"utc\": " ++
        utcRepr r.timestamp ++ "\x7d" := by
  obtain ⟨ref, v, ts⟩ := r
  cases v with
  | scalar s => cases ts <;> rfl
  | tup l =>
    cases ts <;>
      simp [JsonDataProtocol.make_sensor_reading_message, specDataRepr, utcRepr,
        joinTupleLoop_eq]

/-- Claim C10 counterexample: a scalar string entry containing a
newline is stored back unescaped (the newline survives), refuting the
claim that newlines are escaped in every entry's stored
representation. -/
theorem configuration_message_mutation_counterexample :
    (JsonDataProtocol.make_configuration_message "module_device_1"
      [("r", PyVal.scalar (PyScalar.s "a\nb"))]).1 =
      [("r", PyVal.scalar (PyScalar.s "a\nb"))] ∧
    pyHasChar "a\nb" '\n' = true ∧
    "a\nb" ≠ "a\\nb" :=
  ⟨rfl, rfl, by decide⟩

/-- Claim C10 as amended: `make_configuration_message` mutates the
caller's mapping in place, replacing every entry by its string
representation - tuples joined by `","` with booleans lowercased and
newline/CR/quote escaping applied to tuple elements, scalars via the
scalar branch (booleans lowercased, no escaping) - and the payload
serializes exactly the mutated mapping. -/
theorem configuration_message_mutates_in_place (device_key : String)
    (configuration : List (String × PyVal)) :
    (JsonDataProtocol.make_configuration_message device_key configuration).1 =
      configuration.map (fun p => (p.1, PyVal.scalar (PyScalar.s (specValueRepr p.2)))) ∧
    (JsonDataProtocol.make_configuration_message device_key configuration).2.payload =
      "\x7b\"values\": " ++
        jsonDictOfStrings (configuration.map (fun p => (p.1, specValueRepr p.2))) ++
        "\x7d" := by
  unfold JsonDataProtocol.make_configuration_message
  constructor
  · simp [List.map_map, Function.comp, mutateValue_eq_spec]
  · simp [mutateValue_eq_spec]

theorem publishOrStore_ok (connected : Bool) (pubOk putOk : Message → Bool)
    (m : Message) (o : PublishOutcome)
    (h : publishOrStore connected pubOk putOk m = .ok o) :
    (o.published = [m] ∧ o.queued = []) ∨ (o.published = [] ∧ o.queued = [m]) := by
  unfold publishOrStore at h
  split at h
  · split at h
    · cases h; left; exact ⟨rfl, rfl⟩
    · split at h
      · cases h; right; exact ⟨rfl, rfl⟩
      · cases h
  · split at h
    · cases h; right; exact ⟨rfl, rfl⟩
    · cases h

/-- Claim C2: each of `publish_acutator_status`, `publish_device_status`
and `publish_configuration`, when it returns without raising, either
published the encoded message via the connectivity service or put it
into the outbound queue - never both and never neither. -/
theorem publish_ops_publish_xor_enqueue :
    (∀ hah hsp provider connected pubOk putOk dk ref m (o : PublishOutcome),
      publish_acutator_status hah hsp provider connected pubOk putOk dk ref =
        .ok (m, o) →
      (o.published = [m] ∧ o.queued = []) ∨ (o.published = [] ∧ o.queued = [m])) ∧
    (∀ sp connected pubOk putOk dk m (o : PublishOutcome),
      publish_device_status sp connected pubOk putOk dk = .ok (m, o) →
      (o.published = [m] ∧ o.queued = []) ∨ (o.published = [] ∧ o.queued = [m])) ∧
    (∀ hch hcp provider connected pubOk putOk dk m (o : PublishOutcome),
      publish_configuration hch hcp provider connected pubOk putOk dk =
        .ok (m, o) →
      (o.published = [m] ∧ o.queued = []) ∨ (o.published = [] ∧ o.queued = [m])) := by
  refine ⟨?_, ?_, ?_⟩
  · intro hah hsp provider connected pubOk putOk dk ref m o h
    unfold publish_acutator_status at h
    split at h
    · cases h
    · rcases hp : provider dk ref with ⟨st, value⟩
      rw [hp] at h
      cases st with
      | none => cases h
      | some state =>
        simp only at h
        rcases he : publishOrStore connected pubOk putOk
            (JsonDataProtocol.make_actuator_status_message dk
              ⟨ref, state, value⟩) with e | o2
        · rw [he] at h; cases h
        · rw [he] at h
          cases h
          exact publishOrStore_ok _ _ _ _ _ he
  · intro sp connected pubOk putOk dk m o h
    unfold publish_device_status at h
    rcases hp : sp dk with _ | st
    · rw [hp] at h; cases h
    · rw [hp] at h
      simp only at h
      rcases he : publishOrStore connected pubOk putOk
          (JsonStatusProtocol.make_device_status_update_message dk st) with e | o2
      · rw [he] at h; cases h
      · rw [he] at h
        cases h
        exact publishOrStore_ok _ _ _ _ _ he
  · intro hch hcp provider connected pubOk putOk dk m o h
    unfold publish_configuration at h
    split at h
    · cases h
    · rcases hp : provider dk with _ | configuration
      · rw [hp] at h; cases h
      · rw [hp] at h
        simp only at h
        rcases he : publishOrStore connected pubOk putOk
            (JsonDataProtocol.make_configuration_message dk configuration).2
          with e | o2
        · rw [he] at h; cases h
        · rw [he] at h
          cases h
          exact publishOrStore_ok _ _ _ _ _ he

theorem publish_ops_publish_xor_enqueue_witness :
    (((PublishOutcome.mk [actMsgSample] []).published = [actMsgSample] ∧
        (PublishOutcome.mk [actMsgSample] []).queued = []) ∨
      ((PublishOutcome.mk [actMsgSample] []).published = [] ∧
        (PublishOutcome.mk [actMsgSample] []).queued = [actMsgSample])) ∧
    (((PublishOutcome.mk [] [statusMsgSample]).published = [statusMsgSample] ∧
        (PublishOutcome.mk [] [statusMsgSample]).queued = []) ∨
      ((PublishOutcome.mk [] [statusMsgSample]).published = [] ∧
        (PublishOutcome.mk [] [statusMsgSample]).queued = [statusMsgSample])) ∧
    (((PublishOutcome.mk [confMsgSample] []).published = [confMsgSample] ∧
        (PublishOutcome.mk [confMsgSample] []).queued = []) ∨
      ((PublishOutcome.mk [confMsgSample] []).published = [] ∧
        (PublishOutcome.mk [confMsgSample] []).queued = [confMsgSample])) := by
  refine ⟨?_, ?_, ?_⟩
  · exact publish_ops_publish_xor_enqueue.1 true true
      (fun _ _ => (some ActuatorState.READY, PyVal.scalar (PyScalar.i 1)))
      true (fun _ => true) (fun _ => true) "k" "r" actMsgSample ⟨[actMsgSample], []⟩ rfl
  · exact publish_ops_publish_xor_enqueue.2.1
      (fun _ => some DeviceStatus.CONNECTED)
      false (fun _ => true) (fun _ => true) "k" statusMsgSample ⟨[], [statusMsgSample]⟩ rfl
  · exact publish_ops_publish_xor_enqueue.2.2 true true
      (fun _ => some [("ref", PyVal.scalar (PyScalar.i 7))])
      true (fun _ => true) (fun _ => true) "k" confMsgSample ⟨[confMsgSample], []⟩ rfl

/-- Claim C1, evaluated at the failing input: with the transport
connected and a two-message queue whose front message fails to publish,
the global drain of `Wolk.publish` pops the front message before the
publish attempt and then raises AttributeError from
`self.log.info.error`, so the failed message is gone from the queue
instead of remaining in place as claimed. -/
theorem wolk_publish_global_drops_failed_message :
    publish true (fun m => m.topic != "t0")
      [⟨"t0", "a"⟩, ⟨"t1", "b"⟩] none =
      ⟨[⟨"t1", "b"⟩], [], some PyErr.attributeError⟩ ∧
    (⟨"t0", "a"⟩ : Message) ∉ [(⟨"t1", "b"⟩ : Message)] := by
  constructor
  · rfl
  · decide

/-- Claim C3, evaluated at the failing input: on a device-status
request the router calls `extract_key_from_message` on the status
codec, which defines no such attribute, so the branch raises
AttributeError before the status provider is consulted and no response
is published or enqueued. -/
theorem status_request_raises_attribute_error :
    onDeviceStatusRequest (fun _ => some DeviceStatus.CONNECTED)
      (fun _ => true) (fun _ => true)
      ⟨"p2d/subdevice_status_request/d/module_device_1", ""⟩ =
      .error PyErr.attributeError := by
  rfl

/-- Claim C4, evaluated: devices declaring actuators or configuration
options without the matching callbacks are refused with a log and no
state change; a firmware-capable device makes `add_device` read the
never-assigned `self.install_firmware` attribute and raise
AttributeError - with or without a firmware handler - instead of
logging and returning. -/
theorem add_device_refusal_behaviour :
    add_device cbNoneSample trSample mkRegMsgSample ⟨[], [], none, []⟩
      actDeviceSample = (⟨[], [], none, []⟩, none) ∧
    add_device cbNoneSample trSample mkRegMsgSample ⟨[], [], none, []⟩
      confDeviceSample = (⟨[], [], none, []⟩, none) ∧
    add_device cbNoneSample trSample mkRegMsgSample ⟨[], [], none, []⟩
      fwDeviceSample = (⟨[], [], none, []⟩, some PyErr.attributeError) ∧
    add_device cbAllSample trSample mkRegMsgSample ⟨[], [], none, []⟩
      fwDeviceSample = (⟨[], [], none, []⟩, some PyErr.attributeError) := by
  refine ⟨rfl, rfl, rfl, rfl⟩

theorem mem_dropWhile_of_neg {α : Type} {p : α → Bool} {c : α} {l : List α}
    (hm : c ∈ l) (hp : p c = false) : c ∈ l.dropWhile p := by
  have hsplit : l.takeWhile p ++ l.dropWhile p = l :=
    List.takeWhile_append_dropWhile p l
  rcases List.mem_append.mp (by rw [hsplit]; exact hm) with h1 | h2
  · have := List.mem_takeWhile_imp h1
    rw [hp] at this
    cases this
  · exact h2

theorem mem_pyStripChars {c : Char} {cs : List Char}
    (hm : c ∈ cs) (hs : pyIsSpace c = false) : c ∈ pyStripChars cs := by
  unfold pyStripChars
  apply List.mem_reverse.mpr
  apply mem_dropWhile_of_neg _ hs
  apply List.mem_reverse.mpr
  exact mem_dropWhile_of_neg hm hs

theorem parseDigits_none_of_mem {cs : List Char} {c : Char}
    (hm : c ∈ cs) (hd : c.isDigit = false) : parseDigits cs = none := by
  unfold parseDigits
  rw [if_neg]
  intro hcontra
  rw [Bool.and_eq_true] at hcontra
  have := List.all_eq_true.mp hcontra.2 c hm
  rw [hd] at this
  cases this

theorem pyIntChars_none_of_dot {t : List Char} (hm : '.' ∈ t) :
    pyIntChars t = none := by
  have hd : ('.' : Char).isDigit = false := by decide
  match t with
  | [] => rfl
  | c :: rest =>
    show (if c = '+' then (parseDigits rest).map Int.ofNat
      else if c = '-' then (parseDigits rest).map (fun n => -(Int.ofNat n))
      else (parseDigits (c :: rest)).map Int.ofNat) = none
    by_cases h1 : c = '+'
    · rw [if_pos h1]
      have hr : '.' ∈ rest := by
        rcases List.mem_cons.mp hm with he | hr
        · rw [h1] at he; cases he
        · exact hr
      rw [parseDigits_none_of_mem hr hd]
      rfl
    · rw [if_neg h1]
      by_cases h2 : c = '-'
      · rw [if_pos h2]
        have hr : '.' ∈ rest := by
          rcases List.mem_cons.mp hm with he | hr
          · rw [h2] at he; cases he
          · exact hr
        rw [parseDigits_none_of_mem hr hd]
        rfl
      · rw [if_neg h2]
        rw [parseDigits_none_of_mem hm hd]
        rfl

theorem pyInt_none_of_dot (p : String) (h : pyHasChar p '.' = true) :
    pyInt p = none := by
  unfold pyInt
  apply pyIntChars_none_of_dot
  apply mem_pyStripChars _ (by decide)
  simpa [pyHasChar] using h

theorem mapOpt_eq_none_of_mem {α β : Type} {f : α → Option β} {l : List α} {a : α}
    (hm : a ∈ l) (hf : f a = none) : mapOpt f l = none := by
  induction l with
  | nil => cases hm
  | cons x xs ih =>
    rcases List.mem_cons.mp hm with he | hmem
    · subst he
      simp [mapOpt, hf]
    · cases hx : f x with
      | none => simp [mapOpt, hx]
      | some b => simp [mapOpt, hx, ih hmem]

theorem mapOpt_pyInt_none_of_dot {parts : List String}
    (h : parts.any (fun p => pyHasChar p '.') = true) :
    mapOpt pyInt parts = none := by
  rcases List.any_eq_true.mp h with ⟨p, hp, hdot⟩
  exact mapOpt_eq_none_of_mem hp (pyInt_none_of_dot p hdot)

theorem decodeConfValue_eq_spec (v : ConfInVal) (h : noNewlineVal v = true) :
    JsonDataProtocol.decodeConfValue v = specDecodeConfValue v := by
  cases v with
  | b bv => rfl
  | s sv =>
    have hnl : pyHasChar sv '\n' = false := by
      simpa [noNewlineVal] using h
    unfold JsonDataProtocol.decodeConfValue specDecodeConfValue
    simp only [hnl, Bool.false_eq_true, if_false]
    by_cases hc : pyHasChar sv ',' = true
    · simp only [hc, if_true]
      by_cases hd : (pySplitChar sv ',').any (fun p => pyHasChar p '.') = true
      · rw [mapOpt_pyInt_none_of_dot hd]
      · rw [Bool.not_eq_true] at hd
        simp only [hd, Bool.false_eq_true, if_false]
    · rw [Bool.not_eq_true] at hc
      simp [hc]

/-- Claim C7: for newline-free values the decoder follows the claimed
rules exactly (booleans pass through; a comma-separated string becomes
an integer tuple when all elements parse as integers, a float tuple
when some element contains a dot and all elements parse as floats, and
a string tuple otherwise); in particular `"5,12,3"` decodes to the
integer tuple (5, 12, 3). -/
theorem configuration_decode_matches_spec :
    (∀ (m : Message) (values : List (String × ConfInVal)),
      values.all (fun p => noNewlineVal p.2) = true →
      JsonDataProtocol.make_configuration_command m values =
        specMakeConfigurationCommand m values) ∧
    JsonDataProtocol.make_configuration_command
      ⟨"p2d/configuration_set/d/module_device_1",
        "\x7b\"values\": \x7b\"configuration_2\": \"5,12,3\"\x7d\x7d"⟩
      [("configuration_2", ConfInVal.s "5,12,3")] =
      some ⟨ConfigurationCommandType.SET,
        some [("configuration_2", ConfOutVal.ti [5, 12, 3])]⟩ := by
  constructor
  · intro m values hvals
    unfold JsonDataProtocol.make_configuration_command specMakeConfigurationCommand
    by_cases hset : JsonDataProtocol.is_configuration_set_message m = true
    · simp only [hset, if_true]
      have : values.map (fun p => (p.1, JsonDataProtocol.decodeConfValue p.2)) =
          values.map (fun p => (p.1, specDecodeConfValue p.2)) := by
        apply List.map_congr_left
        intro p hp
        rw [decodeConfValue_eq_spec p.2 (List.all_eq_true.mp hvals p hp)]
      rw [this]
    · rw [Bool.not_eq_true] at hset
      simp [hset]
  · rfl

theorem configuration_decode_matches_spec_witness :
    JsonDataProtocol.make_configuration_command
      ⟨"p2d/configuration_set/d/k", ""⟩ [("a", ConfInVal.s "7,8")] =
      specMakeConfigurationCommand
        ⟨"p2d/configuration_set/d/k", ""⟩ [("a", ConfInVal.s "7,8")] :=
  configuration_decode_matches_spec.1 _ _ (by decide)

/-- Claim C7 counterexample: for the value `"1,2\n"` every element of
the original string parses as an integer (Python `int()` strips the
trailing newline), yet the decoder first escapes the newline to a
literal backslash-n, so the result is the string tuple
`("1", "2\\n")` and not the integer tuple (1, 2) the claim
prescribes. -/
theorem configuration_decode_counterexample :
    JsonDataProtocol.make_configuration_command
      ⟨"p2d/configuration_set/d/module_device_1", ""⟩
      [("r", ConfInVal.s "1,2\n")] =
      some ⟨ConfigurationCommandType.SET,
        some [("r", ConfOutVal.ts ["1", "2\\n"])]⟩ ∧
    pyInt "1" = some 1 ∧
    pyInt "2\n" = some 2 ∧
    ConfOutVal.ts ["1", "2\\n"] ≠ ConfOutVal.ti [1, 2] :=
  ⟨rfl, rfl, rfl, by decide⟩

/-- Claim C8: whenever `add_device` appends a device or `remove_device`
removes one, the connectivity service's last-will message is rebuilt,
within the same call, to `make_last_will_message` of exactly the keys
of the devices then in the registry (whose payload is their JSON
array). -/
theorem add_device_result_cases (cb : Callbacks) (tr : Transport)
    (mk : Device → Message) (w : WolkState) (d : Device) :
    (add_device cb tr mk w d).1 = w ∨
    ((add_device cb tr mk w d).1.devices = w.devices ++ [d] ∧
      (add_device cb tr mk w d).1.lastwill =
        some (JsonStatusProtocol.make_last_will_message
          ((w.devices ++ [d]).map Device.key))) := by
  unfold add_device
  dsimp only
  repeat' split
  all_goals first
    | exact Or.inl rfl
    | exact Or.inr ⟨rfl, rfl⟩

/-- Claim C8: whenever `add_device` appends a device or `remove_device`
removes one, the connectivity service's last-will message is rebuilt,
within the same call, to `make_last_will_message` of exactly the keys
of the devices then in the registry (whose payload is their JSON
array). -/
theorem lastwill_tracks_registry :
    (∀ cb tr mk (w : WolkState) d,
      (add_device cb tr mk w d).1.devices ≠ w.devices →
      (add_device cb tr mk w d).1.lastwill =
        some (JsonStatusProtocol.make_last_will_message
          ((add_device cb tr mk w d).1.devices.map Device.key))) ∧
    (∀ tr (w : WolkState) k,
      (remove_device tr w k).devices ≠ w.devices →
      (remove_device tr w k).lastwill =
        some (JsonStatusProtocol.make_last_will_message
          ((remove_device tr w k).devices.map Device.key))) := by
  constructor
  · intro cb tr mk w d hne
    rcases add_device_result_cases cb tr mk w d with h | ⟨hdev, hlw⟩
    · exfalso; apply hne; rw [h]
    · rw [hlw, hdev]
  · intro tr w k hne
    unfold remove_device at hne ⊢
    by_cases h1 : (w.devices.map Device.key).contains k = true
    · rw [if_pos h1]
    · rw [if_neg h1] at hne
      exact absurd rfl hne

theorem lastwill_tracks_registry_witness :
    (add_device cbNoneSample trSample mkRegMsgSample ⟨[], [], none, []⟩
      plainDeviceSample).1.lastwill =
      some (JsonStatusProtocol.make_last_will_message
        ((add_device cbNoneSample trSample mkRegMsgSample ⟨[], [], none, []⟩
          plainDeviceSample).1.devices.map Device.key)) ∧
    (remove_device trSample ⟨[plainDeviceSample], [], none, []⟩
      "module_device_1").lastwill =
      some (JsonStatusProtocol.make_last_will_message
        ((remove_device trSample ⟨[plainDeviceSample], [], none, []⟩
          "module_device_1").devices.map Device.key)) := by
  constructor
  · exact lastwill_tracks_registry.1 cbNoneSample trSample mkRegMsgSample
      ⟨[], [], none, []⟩ plainDeviceSample (by decide)
  · exact lastwill_tracks_registry.2 trSample ⟨[plainDeviceSample], [], none, []⟩
      "module_device_1" (by decide)

end WolkGM
